import Mathlib

/-!
Verification of the receipt-scanner backend
(`src/receipt-scanner/google_apps_script.js`).

The script is a Google Apps Script web endpoint: `doPost` receives a JSON
receipt record, lazily creates a header row in the backing spreadsheet,
checks for duplicates with `findDuplicate` (unless `force` is set), and
appends one row per accepted receipt.  A one-shot `migrateOldRows`
function backfills the Raw Date / Raw Total columns, and `writeDebugLog`
records each duplicate decision on a separate "Debug" sheet.

Modelling conventions:
* A JSON field that may be absent is an `Option String`; the JS idiom
  `x || d` (which substitutes `d` for `undefined`, `null` and the empty
  string, all falsy) is `jsOr` on options and `jsOrS` on strings.
* The spreadsheet is value-faithful: a cell returns exactly the string
  written into it.  The ledger sheet is a `List Row` (row 1 of the sheet
  is index 0 of the list); the Debug sheet is a `List DebugRow`.
* The `Item Count` column is the one cell written as a number, not text,
  so it is modelled by the `Cell` sum type; every other written cell is
  a string.  `toString` on a string cell is the identity.
* `new Date().toISOString()` is an opaque `now : String` argument.
-/

/-- JS `x || d` for an optional string `x`: `undefined` and `""` are falsy. -/
def jsOr : Option String → String → String
  | none, d => d
  | some s, d => if s = "" then d else s

/-- JS `x || d` for a string `x` already in hand: `""` is falsy. -/
def jsOrS (s d : String) : String :=
  if s = "" then d else s

/-- JS template interpolation of a possibly-absent value: `undefined`
prints as the literal text "undefined". -/
def jsUndef : Option String → String
  | none => "undefined"
  | some s => s

/-- JS `String.prototype.toLowerCase` (on the ASCII content the script
compares), as a kernel-computable map over the characters. -/
def jsToLower (s : String) : String :=
  ⟨s.data.map Char.toLower⟩

/-- JS `String.prototype.trim`: drop leading and trailing whitespace, as a
kernel-computable operation on the character list. -/
def jsTrim (s : String) : String :=
  ⟨((s.data.dropWhile Char.isWhitespace).reverse.dropWhile Char.isWhitespace).reverse⟩

/-- One entry of the `items` array of the incoming JSON payload. -/
structure Item where
  description : String
  quantity : String
  price : String
deriving DecidableEq, Repr

/-- The incoming JSON receipt record (`data` in `doPost`).  Every field is
optional except `force`, whose absence is the same as `false`. -/
structure Receipt where
  merchantName : Option String
  date : Option String
  time : Option String
  total : Option String
  currency : Option String
  tax : Option String
  items : Option (List Item)
  force : Bool
deriving DecidableEq, Repr

/-- A spreadsheet cell: the script writes strings everywhere except the
`Item Count` column, which it writes as a number. -/
inductive Cell where
  | str (s : String)
  | num (n : Nat)
deriving DecidableEq, Repr

/-- One row of the ledger sheet, columns A..K:
Date, Time, Merchant, Total, Currency, Tax, Item Count,
Items (Description x Qty @ Price), Timestamp, Raw Date, Raw Total. -/
structure Row where
  date : String
  time : String
  merchant : String
  total : String
  currency : String
  tax : String
  itemCount : Cell
  itemsText : String
  timestamp : String
  rawDate : String
  rawTotal : String
deriving DecidableEq, Repr

/-- The header row appended when the sheet is empty (lines 40-52). -/
def headerRow : Row :=
  { date := "Date", time := "Time", merchant := "Merchant", total := "Total"
    currency := "Currency", tax := "Tax", itemCount := Cell.str "Item Count"
    itemsText := "Items (Description x Qty @ Price)", timestamp := "Timestamp"
    rawDate := "Raw Date", rawTotal := "Raw Total" }

/-- An all-blank row, used only as the default of `List.getD` at indices
that are always in range. -/
def emptyRow : Row :=
  { date := "", time := "", merchant := "", total := "", currency := ""
    tax := "", itemCount := Cell.str "", itemsText := "", timestamp := ""
    rawDate := "", rawTotal := "" }

/-- The `data` object returned inside a duplicate result (lines 171-175). -/
structure DupData where
  merchant : String
  date : String
  total : String
deriving DecidableEq, Repr

/-- One row of the "Debug" sheet (8 columns, lines 290 and 318-327). -/
structure DebugRow where
  timestamp : String
  result : String
  incMerchant : String
  incDate : String
  incTotal : String
  rawDateCol : String
  rawTotalCol : String
  merchantCol : String
deriving DecidableEq, Repr

/-- The JSON body of a `doPost` response: the duplicate warning (lines
70-75), the success response (lines 119-123), or the catch-all error
response (lines 127-130). -/
inductive Response where
  | duplicate (row : Nat) (existing : DupData) (message : String)
  | success (message : String) (row : Nat)
  | failure (error : String)
deriving DecidableEq, Repr

/-- True exactly on the error-shaped response `{success:false, error}`. -/
def isFailureResp : Response → Bool
  | Response.failure _ => true
  | _ => false

/-- The whole mutable state touched by a request: the ledger sheet and the
"Debug" sheet. -/
structure AppState where
  ledger : List Row
  debug : List DebugRow
deriving DecidableEq, Repr

/-- `rowData.rawDate` of the scan (line 156): use the Raw Date column if
non-empty, else fall back to the display Date column. -/
def rawDateOf (r : Row) : String :=
  jsOrS r.rawDate r.date

/-- `rowData.rawTotal` of the scan (line 157): use the Raw Total column if
non-empty, else fall back to the display Total column. -/
def rawTotalOf (r : Row) : String :=
  jsOrS r.rawTotal r.total

/-- Line 161: case-insensitive, trimmed comparison of the stored merchant
with the candidate's `merchantName` (empty string when absent). -/
def merchantMatch (r : Row) (c : Receipt) : Bool :=
  jsTrim (jsToLower (jsOrS r.merchant "")) == jsTrim (jsToLower (jsOr c.merchantName ""))

/-- Line 162: trimmed string equality of the stored raw date (with its
fallback) against the candidate's `date`. -/
def dateMatch (r : Row) (c : Receipt) : Bool :=
  jsTrim (jsOrS (rawDateOf r) "") == jsTrim (jsOr c.date "")

/-- Line 163: trimmed string equality of the stored raw total (with its
fallback) against the candidate's `total`. -/
def totalMatch (r : Row) (c : Receipt) : Bool :=
  jsTrim (jsOrS (rawTotalOf r) "") == jsTrim (jsOr c.total "")

/-- Line 167: a row is a duplicate when all three predicates hold. -/
def rowMatches (r : Row) (c : Receipt) : Bool :=
  merchantMatch r c && dateMatch r c && totalMatch r c

/-- The `data` summary attached to a duplicate result (lines 171-175). -/
def dupDataOf (r : Row) : DupData :=
  { merchant := r.merchant, date := rawDateOf r, total := rawTotalOf r }

/-- The scan loop of `findDuplicate` (lines 151-178): `i` is the position
in the data array, and a hit at position `i` reports sheet row `i + 2`
(one for the header, one for 1-based sheet indexing). -/
def findDuplicateAux (c : Receipt) : List Row → Nat → Option (Nat × DupData)
  | [], _ => none
  | r :: rest, i =>
      if rowMatches r c then some (i + 2, dupDataOf r)
      else findDuplicateAux c rest (i + 1)

/-- `findDuplicate` (lines 138-181): nothing to scan when the sheet has at
most the header row; otherwise scan every row after row 1 in storage
order. -/
def findDuplicate (rows : List Row) (c : Receipt) : Option (Nat × DupData) :=
  if rows.length ≤ 1 then none
  else findDuplicateAux c (rows.drop 1) 0

/-- The duplicate-warning message (line 74).  `duplicate.data` has no
`currency` field, so the interpolation prints the text "undefined". -/
def dupMessage (d : DupData) : String :=
  "Duplicate found: " ++ d.merchant ++ " on " ++ d.date ++
    " for undefined " ++ d.total

/-- The `itemsText` rendering (lines 84-91). -/
def itemsTextOf (data : Receipt) : String :=
  match data.items with
  | some l =>
      if 0 < l.length then
        String.intercalate "; " (l.map fun it =>
          it.description ++ " x" ++ it.quantity ++ " @ " ++
            jsUndef data.currency ++ " " ++ it.price)
      else "No items"
  | none => "No items"

/-- The `rowData` array written for an accepted receipt (lines 94-106).
The ternary `data.items ? data.items.length : 0` yields the length for any
present array (an empty JS array is truthy) and 0 when absent, which is
`(getD [] ).length` either way. -/
def buildRow (data : Receipt) (now : String) : Row :=
  { date := jsOr data.date ""
    time := jsOr data.time ""
    merchant := jsOr data.merchantName "Unknown"
    total := jsOr data.total "0.00"
    currency := jsOr data.currency "USD"
    tax := jsOr data.tax "0.00"
    itemCount := Cell.num (data.items.getD []).length
    itemsText := itemsTextOf data
    timestamp := now
    rawDate := jsOr data.date ""
    rawTotal := jsOr data.total "" }

/-- Header of the "Debug" sheet (lines 290 and 297). -/
def debugHeaderRow : DebugRow :=
  { timestamp := "Timestamp", result := "Result", incMerchant := "Inc Merchant"
    incDate := "Inc Date", incTotal := "Inc Total"
    rawDateCol := "Sheet Row 2 Col J (RawDate)"
    rawTotalCol := "Sheet Row 2 Col K (RawTotal)"
    merchantCol := "Sheet Row 2 Col C (Merchant)" }

/-- `writeDebugLog` (lines 282-333).  It touches only the "Debug" sheet;
the ledger is read (row 2) but never written.  A missing Debug sheet and
an existing empty one are indistinguishable here: both branches produce
the header followed by the new entry.  Its `duplicate` parameter is
unused in the source as well.  Its internal try/catch swallows its own
errors, so it never aborts `doPost`. -/
def writeDebugLog (ledger : List Row) (debug : List DebugRow)
    (newReceipt : Receipt) (_duplicate : Option (Nat × DupData))
    (result now : String) : List DebugRow :=
  let d1 :=
    match debug with
    | [] => [debugHeaderRow]
    | h :: _ => if h.timestamp ≠ "Timestamp" then debugHeaderRow :: debug else debug
  let row2 := ledger.getD 1 emptyRow
  let sheetMerchant := if 1 < ledger.length then jsOrS row2.merchant "" else ""
  let sheetRawDate := if 1 < ledger.length then jsOrS row2.rawDate "" else ""
  let sheetRawTotal := if 1 < ledger.length then jsOrS row2.rawTotal "" else ""
  d1 ++ [{ timestamp := now, result := result
           incMerchant := jsOr newReceipt.merchantName ""
           incDate := jsOr newReceipt.date ""
           incTotal := jsOr newReceipt.total ""
           rawDateCol := jsOrS sheetRawDate "(empty)"
           rawTotalCol := jsOrS sheetRawTotal "(empty)"
           merchantCol := jsOrS sheetMerchant "(empty)" }]

/-- Lines 39-59: append the header row when the sheet is empty
(`getLastRow() === 0`). -/
def ledgerInit (rows : List Row) : List Row :=
  if rows.length = 0 then rows ++ [headerRow] else rows

/-- `doPost` (lines 27-132) on a well-formed payload, with no storage
faults: initialize the header if the sheet is empty, run the duplicate
check unless `force` is set (logging the decision to the Debug sheet),
and otherwise append one row, answering with the post-append
`getLastRow()`. -/
def doPost (st : AppState) (data : Receipt) (now : String) : AppState × Response :=
  let L := ledgerInit st.ledger
  if data.force = false then
    match findDuplicate L data with
    | some (row, d) =>
        (⟨L, writeDebugLog L st.debug data (some (row, d)) "DUPLICATE FOUND" now⟩,
          Response.duplicate row d (dupMessage d))
    | none =>
        let L2 := L ++ [buildRow data now]
        (⟨L2, writeDebugLog L st.debug data none "NO DUPLICATE" now⟩,
          Response.success "Receipt saved successfully" L2.length)
  else
    let L2 := L ++ [buildRow data now]
    (⟨L2, st.debug⟩, Response.success "Receipt saved successfully" L2.length)

/-- One step of `migrateOldRows` (lines 257-273) on a data row: copy the
Date column over Raw Date and the Total column over Raw Total, each only
when the source cell is truthy (non-empty). -/
def migrateRow (r : Row) : Row :=
  let r1 := if r.date ≠ "" then { r with rawDate := r.date } else r
  if r1.total ≠ "" then { r1 with rawTotal := r1.total } else r1

/-- `migrateOldRows` (lines 238-277): no-op when the sheet has at most the
header row, otherwise rewrite every data row in place. -/
def migrateOldRows (rows : List Row) : List Row :=
  if rows.length ≤ 1 then rows
  else rows.take 1 ++ (rows.drop 1).map migrateRow

/-- The stringified storage exception used by the fault model. -/
def storageFailureMsg : String := "Exception: storage access failed"

/-- The stringified `JSON.parse` exception (line 30 throwing). -/
def parseFailureMsg : String := "SyntaxError: unexpected token in JSON"

/-- Fault-injected tail of `doPost` after the duplicate decision: storage
calls number `k` (`getLastRow`, line 109), `k+1` (`setValues`, line 110,
faulting before the write lands), `k+2` (`setNumberFormat`, line 113),
`k+3` (`autoResizeColumns`, line 116) and `k+4` (`getLastRow`, line 122).
A faulting call throws, which the catch at line 125 turns into the error
response — without undoing earlier writes. -/
def appendPhase (fault : Option Nat) (k : Nat) (ledger : List Row)
    (data : Receipt) (now : String) : List Row × Response :=
  if fault = some k then (ledger, Response.failure storageFailureMsg) else
  if fault = some (k + 1) then (ledger, Response.failure storageFailureMsg) else
  let L2 := ledger ++ [buildRow data now]
  if fault = some (k + 2) then (L2, Response.failure storageFailureMsg) else
  if fault = some (k + 3) then (L2, Response.failure storageFailureMsg) else
  if fault = some (k + 4) then (L2, Response.failure storageFailureMsg) else
  (L2, Response.success "Receipt saved successfully" L2.length)

/-- Fault-injected duplicate check (lines 62-81): storage call `k` is the
`getLastRow` of line 139 and call `k+1` the `getValues` of line 148 (run
only when there are data rows).  `writeDebugLog` is not a fault point: it
has its own try/catch and touches only the Debug sheet. -/
def dupPhase (fault : Option Nat) (k : Nat) (ledger : List Row)
    (data : Receipt) (now : String) : List Row × Response :=
  if data.force = false then
    if fault = some k then (ledger, Response.failure storageFailureMsg) else
    if ledger.length ≤ 1 then appendPhase fault (k + 1) ledger data now
    else
      if fault = some (k + 1) then (ledger, Response.failure storageFailureMsg) else
      match findDuplicate ledger data with
      | some (row, d) => (ledger, Response.duplicate row d (dupMessage d))
      | none => appendPhase fault (k + 2) ledger data now
  else appendPhase fault k ledger data now

/-- `doPost` under the fault model, ledger sheet only.  `post = none` is a
malformed body (the `JSON.parse` of line 30 throws before any storage
access).  Storage calls are numbered in execution order: 0 is the
`getLastRow` of line 39, and on an empty sheet 1 is the header
`appendRow` (line 40, faulting before the write lands) and 2 the header
formatting of lines 55-58; every later call is numbered by `dupPhase`
and `appendPhase`.  Each injected fault is an exception thrown by that
call, caught by the try/catch of lines 28/125 and turned into the error
response, with all writes made by earlier calls still in place. -/
def doPostFaulty (fault : Option Nat) (ledger : List Row)
    (post : Option Receipt) (now : String) : List Row × Response :=
  match post with
  | none => (ledger, Response.failure parseFailureMsg)
  | some data =>
    if fault = some 0 then (ledger, Response.failure storageFailureMsg) else
    if ledger.length = 0 then
      if fault = some 1 then (ledger, Response.failure storageFailureMsg) else
      let L1 := ledger ++ [headerRow]
      if fault = some 2 then (L1, Response.failure storageFailureMsg) else
      dupPhase fault 3 L1 data now
    else dupPhase fault 1 ledger data now

/-- Ledger states reachable by running `doPost` requests from an empty
spreadsheet. -/
inductive Reachable : AppState → Prop where
  | empty : Reachable ⟨[], []⟩
  | step (st : AppState) (data : Receipt) (now : String) :
      Reachable st → Reachable (doPost st data now).1

/-- Fixture: the well-populated receipt of the spec's worked examples. -/
def candA : Receipt :=
  { merchantName := some "Acme", date := some "2024-01-01", time := none
    total := some "10.00", currency := some "USD", tax := none
    items := none, force := false }

/-- Fixture: `candA` with only the total changed from 10.00 to 10.01. -/
def candB : Receipt := { candA with total := some "10.01" }

/-- Fixture: a receipt with every optional field absent. -/
def candU : Receipt :=
  { merchantName := none, date := none, time := none, total := none
    currency := none, tax := none, items := none, force := false }

/-- Fixture: `candA` with the total absent. -/
def candNoTotal : Receipt := { candA with total := none }

/-- Fixture: `candA` with the force flag set. -/
def candForce : Receipt := { candA with force := true }

/-- Fixture: a stored ledger row whose merchant cell differs from
`candA`'s merchant only by case and surrounding whitespace. -/
def storedAcmeRow : Row :=
  { date := "2024-01-01", time := "", merchant := "  acme ", total := "10.00"
    currency := "USD", tax := "0.00", itemCount := Cell.num 0
    itemsText := "No items", timestamp := "t0"
    rawDate := "2024-01-01", rawTotal := "10.00" }

/-- Fixture: the empty spreadsheet. -/
def st0 : AppState := ⟨[], []⟩

/-- Fixture: the state after accepting `candA` into an empty spreadsheet. -/
def st1 : AppState := (doPost st0 candA "t1").1

/-- Fixture: a ledger holding three identical copies of `candA`'s row, as
left by three force-inserted submissions of the same receipt. -/
def rowsC4 : List Row :=
  [headerRow, buildRow candA "t1", buildRow candA "t2", buildRow candA "t3"]

theorem jsOrS_empty_right (a : String) : jsOrS a "" = a := by
  unfold jsOrS; split <;> simp_all

theorem jsOrS_self (a : String) : jsOrS a a = a := by
  unfold jsOrS; split <;> rfl

theorem jsOrS_of_ne {a : String} (d : String) (h : a ≠ "") : jsOrS a d = a := by
  unfold jsOrS; simp [h]

theorem jsOr_via (o : Option String) (d : String) :
    jsOr o d = jsOrS (jsOr o "") d := by
  cases o with
  | none => simp [jsOr, jsOrS]
  | some s => by_cases h : s = "" <;> simp [jsOr, jsOrS, h]

theorem buildRow_ne_headerRow (c : Receipt) (now : String) :
    buildRow c now ≠ headerRow := by
  intro h
  have := congrArg Row.itemCount h
  simp [buildRow, headerRow] at this

theorem ledgerInit_of_ne_nil {rows : List Row} (h : rows ≠ []) :
    ledgerInit rows = rows := by
  unfold ledgerInit
  simp [List.length_eq_zero, h]

theorem ledgerInit_ne_nil (rows : List Row) : ledgerInit rows ≠ [] := by
  unfold ledgerInit
  split <;> simp_all

theorem doPost_force (st : AppState) (data : Receipt) (now : String)
    (h : data.force = true) :
    doPost st data now =
      (⟨ledgerInit st.ledger ++ [buildRow data now], st.debug⟩,
        Response.success "Receipt saved successfully"
          ((ledgerInit st.ledger).length + 1)) := by
  simp [doPost, h]

theorem doPost_dup (st : AppState) (data : Receipt) (now : String)
    (r : Nat) (d : DupData) (hf : data.force = false)
    (hd : findDuplicate (ledgerInit st.ledger) data = some (r, d)) :
    doPost st data now =
      (⟨ledgerInit st.ledger,
        writeDebugLog (ledgerInit st.ledger) st.debug data (some (r, d))
          "DUPLICATE FOUND" now⟩,
        Response.duplicate r d (dupMessage d)) := by
  simp [doPost, hf, hd]

theorem doPost_nodup (st : AppState) (data : Receipt) (now : String)
    (hf : data.force = false)
    (hd : findDuplicate (ledgerInit st.ledger) data = none) :
    doPost st data now =
      (⟨ledgerInit st.ledger ++ [buildRow data now],
        writeDebugLog (ledgerInit st.ledger) st.debug data none
          "NO DUPLICATE" now⟩,
        Response.success "Receipt saved successfully"
          ((ledgerInit st.ledger).length + 1)) := by
  simp [doPost, hf, hd]

theorem findDuplicateAux_none_iff (c : Receipt) (data : List Row) :
    ∀ i : Nat, (findDuplicateAux c data i = none ↔
      ∀ r ∈ data, rowMatches r c = false) := by
  induction data with
  | nil => intro i; simp [findDuplicateAux]
  | cons r rest ih =>
    intro i
    by_cases hr : rowMatches r c = true
    · simp [findDuplicateAux, hr]
    · have hr' : rowMatches r c = false := eq_false_of_ne_true hr
      simp [findDuplicateAux, hr', ih (i + 1)]

theorem findDuplicateAux_some_spec (c : Receipt) (data : List Row) :
    ∀ (i k : Nat) (d : DupData), findDuplicateAux c data i = some (k, d) →
      ∃ j, j < data.length ∧ k = i + j + 2 ∧
        rowMatches (data.getD j emptyRow) c = true ∧
        d = dupDataOf (data.getD j emptyRow) ∧
        ∀ m, m < j → rowMatches (data.getD m emptyRow) c = false := by
  induction data with
  | nil => intro i k d h; simp [findDuplicateAux] at h
  | cons r rest ih =>
    intro i k d h
    by_cases hr : rowMatches r c = true
    · rw [findDuplicateAux, if_pos hr] at h
      obtain ⟨hk, hd⟩ : i + 2 = k ∧ dupDataOf r = d := by
        constructor <;> injection h with h1 <;> simp_all
      refine ⟨0, by simp, by omega, by simpa using hr, by simp [← hd],
        fun m hm => absurd hm (Nat.not_lt_zero m)⟩
    · rw [findDuplicateAux, if_neg hr] at h
      obtain ⟨j, hj, hk, hm, hd, hprev⟩ := ih (i + 1) k d h
      refine ⟨j + 1, by simpa using hj, by omega, by simpa using hm,
        by simpa using hd, ?_⟩
      intro m hm'
      match m with
      | 0 => simpa using eq_false_of_ne_true hr
      | Nat.succ m' => simpa using hprev m' (by omega)

theorem findDuplicateAux_append_hit (c : Receipt) (x : Row)
    (hx : rowMatches x c = true) :
    ∀ (data : List Row) (i : Nat), (∀ r ∈ data, rowMatches r c = false) →
      findDuplicateAux c (data ++ [x]) i =
        some (i + data.length + 2, dupDataOf x) := by
  intro data
  induction data with
  | nil => intro i _; simp [findDuplicateAux, hx]
  | cons r rest ih =>
    intro i hall
    have hr : rowMatches r c = false := hall r (by simp)
    have harith : i + 1 + rest.length + 2 = i + (r :: rest).length + 2 := by
      simp [List.length_cons]; omega
    rw [List.cons_append, findDuplicateAux, if_neg (by simp [hr]),
      ih (i + 1) (fun r' hr' => hall r' (by simp [hr'])), harith]

theorem rowMatches_buildRow_self (c : Receipt) (now : String)
    (hm : jsOr c.merchantName "" ≠ "") (ht : jsOr c.total "" ≠ "") :
    rowMatches (buildRow c now) c = true := by
  have h1 : jsOr c.merchantName "Unknown" = jsOr c.merchantName "" := by
    rw [jsOr_via c.merchantName "Unknown", jsOrS_of_ne _ hm]
  have h2 : jsOr c.total "0.00" = jsOr c.total "" := by
    rw [jsOr_via c.total "0.00", jsOrS_of_ne _ ht]
  simp [rowMatches, merchantMatch, dateMatch, totalMatch, rawDateOf,
    rawTotalOf, buildRow, h1, h2, jsOrS_of_ne _ hm, jsOrS_of_ne _ ht,
    jsOrS_self, jsOrS_empty_right]

theorem doPost_ledger_cases (st : AppState) (data : Receipt) (now : String) :
    ((doPost st data now).1).ledger = ledgerInit st.ledger ∨
    ((doPost st data now).1).ledger =
      ledgerInit st.ledger ++ [buildRow data now] := by
  by_cases hf : data.force = false
  · cases hfd : findDuplicate (ledgerInit st.ledger) data with
    | none => right; rw [doPost_nodup st data now hf hfd]
    | some rd =>
        left; rw [doPost_dup st data now rd.1 rd.2 hf (by simpa using hfd)]
  · right
    rw [doPost_force st data now (by simpa using hf)]

theorem reachable_shape {st : AppState} (h : Reachable st) :
    st.ledger = [] ∨ ∃ t, st.ledger = headerRow :: t ∧
      ∀ r ∈ t, ∃ c now, r = buildRow c now := by
  induction h with
  | empty => exact Or.inl rfl
  | step st data now _ ih =>
    have hcases := doPost_ledger_cases st data now
    rcases ih with hnil | ⟨t, ht, hall⟩
    · have hinit : ledgerInit st.ledger = [headerRow] := by
        rw [hnil]; rfl
      rcases hcases with hc | hc
      · exact Or.inr ⟨[], by rw [hc, hinit], by simp⟩
      · refine Or.inr ⟨[buildRow data now], by rw [hc, hinit]; rfl, ?_⟩
        intro r hr
        simp at hr
        exact ⟨data, now, hr⟩
    · have hinit : ledgerInit st.ledger = headerRow :: t := by
        rw [ledgerInit_of_ne_nil (by rw [ht]; simp), ht]
      rcases hcases with hc | hc
      · exact Or.inr ⟨t, by rw [hc, hinit], hall⟩
      · refine Or.inr ⟨t ++ [buildRow data now], by rw [hc, hinit]; rfl, ?_⟩
        intro r hr
        rcases List.mem_append.mp hr with h1 | h1
        · exact hall r h1
        · exact ⟨data, now, by simpa using h1⟩

/-- Claim C4: whenever `findDuplicate` reports a duplicate at sheet row
`k`, the data row at `k` matches and every data row at a lower sheet row
does not (the scan returns the first match in storage order), and a
duplicate is reported whenever any data row matches. -/
theorem C4_first_match :
    (∀ (rows : List Row) (c : Receipt) (k : Nat) (d : DupData),
      findDuplicate rows c = some (k, d) →
        2 ≤ k ∧ k < (rows.drop 1).length + 2 ∧
        rowMatches ((rows.drop 1).getD (k - 2) emptyRow) c = true ∧
        ∀ j, j < k - 2 → rowMatches ((rows.drop 1).getD j emptyRow) c = false)
  ∧ (∀ (rows : List Row) (c : Receipt), 2 ≤ rows.length →
      (∃ r ∈ rows.drop 1, rowMatches r c = true) →
      (findDuplicate rows c).isSome = true) := by
  constructor
  · intro rows c k d h
    have h2 : findDuplicateAux c (rows.drop 1) 0 = some (k, d) := by
      by_cases hl : rows.length ≤ 1
      · simp [findDuplicate, hl] at h
      · simpa [findDuplicate, hl] using h
    obtain ⟨j, hj, hk, hm, _, hprev⟩ :=
      findDuplicateAux_some_spec c (rows.drop 1) 0 k d h2
    have hkj : k - 2 = j := by omega
    exact ⟨by omega, by omega, by rw [hkj]; exact hm,
      fun m hm' => hprev m (by omega)⟩
  · rintro rows c hl ⟨r, hr, hmr⟩
    by_cases hnone : findDuplicateAux c (rows.drop 1) 0 = none
    · rw [findDuplicateAux_none_iff] at hnone
      exact absurd (hnone r hr) (by simp [hmr])
    · rw [findDuplicate, if_neg (by omega)]
      exact Option.ne_none_iff_isSome.mp hnone

/-- Claim C4 witness: three identical stored copies of `candA`'s row;
the scan reports sheet row 2, the first of them. -/
theorem C4_witness :
    (2 ≤ 2 ∧ 2 < (rowsC4.drop 1).length + 2 ∧
      rowMatches ((rowsC4.drop 1).getD (2 - 2) emptyRow) candA = true ∧
      ∀ j, j < 2 - 2 → rowMatches ((rowsC4.drop 1).getD j emptyRow) candA = false)
    ∧ (findDuplicate rowsC4 candA).isSome = true :=
  ⟨C4_first_match.1 rowsC4 candA 2 (dupDataOf (buildRow candA "t1")) (by decide),
   C4_first_match.2 rowsC4 candA (by decide)
     ⟨buildRow candA "t1", by decide, by decide⟩⟩

/-- Claim C5: the duplicate match is insensitive to case (merchant) and to
leading/trailing whitespace (all three fields): candidates that agree
after lower-casing and trimming are matched identically, a stored
merchant cell may be replaced by any case/whitespace variant, and the
spec's concrete example — candidate merchant "Acme" against stored
merchant "  acme " — is reported as a duplicate. -/
theorem C5_insensitive_matching :
    (∀ (r : Row) (c₁ c₂ : Receipt),
      jsTrim (jsToLower (jsOr c₁.merchantName "")) =
        jsTrim (jsToLower (jsOr c₂.merchantName "")) →
      merchantMatch r c₁ = merchantMatch r c₂)
  ∧ (∀ (r : Row) (c₁ c₂ : Receipt),
      jsTrim (jsOr c₁.date "") = jsTrim (jsOr c₂.date "") →
      dateMatch r c₁ = dateMatch r c₂)
  ∧ (∀ (r : Row) (c₁ c₂ : Receipt),
      jsTrim (jsOr c₁.total "") = jsTrim (jsOr c₂.total "") →
      totalMatch r c₁ = totalMatch r c₂)
  ∧ (∀ (r : Row) (c : Receipt) (m : String),
      jsTrim (jsToLower m) = jsTrim (jsToLower (jsOrS r.merchant "")) →
      merchantMatch { r with merchant := m } c = merchantMatch r c)
  ∧ findDuplicate [headerRow, storedAcmeRow] candA =
      some (2, { merchant := "  acme ", date := "2024-01-01", total := "10.00" }) := by
  refine ⟨?_, ?_, ?_, ?_, by decide⟩
  · intro r c₁ c₂ h; simp [merchantMatch, h]
  · intro r c₁ c₂ h; simp [dateMatch, h]
  · intro r c₁ c₂ h; simp [totalMatch, h]
  · intro r c m h; simp [merchantMatch, jsOrS_empty_right, h]

/-- Claim C5 witness: the insensitivity facts applied at concrete
case/whitespace variants of `candA` against the stored row. -/
theorem C5_witness :
    merchantMatch storedAcmeRow candA =
      merchantMatch storedAcmeRow { candA with merchantName := some " ACME  " }
  ∧ dateMatch storedAcmeRow candA =
      dateMatch storedAcmeRow { candA with date := some " 2024-01-01 " }
  ∧ totalMatch storedAcmeRow candA =
      totalMatch storedAcmeRow { candA with total := some " 10.00 " }
  ∧ merchantMatch { storedAcmeRow with merchant := "ACME" } candA =
      merchantMatch storedAcmeRow candA :=
  ⟨C5_insensitive_matching.1 storedAcmeRow candA _ (by decide),
   C5_insensitive_matching.2.1 storedAcmeRow candA _ (by decide),
   C5_insensitive_matching.2.2.1 storedAcmeRow candA _ (by decide),
   C5_insensitive_matching.2.2.2.1 storedAcmeRow candA "ACME" (by decide)⟩

/-- Claim C6: a duplicate is reported only when the merchant, date and
total predicates all hold at the reported row; concretely, after storing
`candA` (total "10.00"), resubmitting it is a duplicate of row 2 while
the same receipt with total "10.01" is accepted as row 3. -/
theorem C6_all_three_predicates :
    (∀ (rows : List Row) (c : Receipt) (k : Nat) (d : DupData),
      findDuplicate rows c = some (k, d) →
        merchantMatch ((rows.drop 1).getD (k - 2) emptyRow) c = true ∧
        dateMatch ((rows.drop 1).getD (k - 2) emptyRow) c = true ∧
        totalMatch ((rows.drop 1).getD (k - 2) emptyRow) c = true)
  ∧ (doPost st1 candA "t2").2 =
      Response.duplicate 2 (dupDataOf (buildRow candA "t1"))
        (dupMessage (dupDataOf (buildRow candA "t1")))
  ∧ (doPost st1 candB "t2").2 =
      Response.success "Receipt saved successfully" 3 := by
  refine ⟨?_, by decide, by decide⟩
  intro rows c k d h
  have h2 : findDuplicateAux c (rows.drop 1) 0 = some (k, d) := by
    by_cases hl : rows.length ≤ 1
    · simp [findDuplicate, hl] at h
    · simpa [findDuplicate, hl] using h
  obtain ⟨j, _, hk, hm, _, _⟩ :=
    findDuplicateAux_some_spec c (rows.drop 1) 0 k d h2
  have hkj : k - 2 = j := by omega
  rw [hkj]
  simp only [rowMatches, Bool.and_eq_true] at hm
  exact ⟨hm.1.1, hm.1.2, hm.2⟩

/-- Claim C6 witness: the three predicates at the row reported for
resubmitting `candA`. -/
theorem C6_witness :
    merchantMatch ((rowsC4.drop 1).getD (2 - 2) emptyRow) candA = true ∧
    dateMatch ((rowsC4.drop 1).getD (2 - 2) emptyRow) candA = true ∧
    totalMatch ((rowsC4.drop 1).getD (2 - 2) emptyRow) candA = true :=
  C6_all_three_predicates.1 rowsC4 candA 2 (dupDataOf (buildRow candA "t1"))
    (by decide)

/-- Claim C7: a request answered with a duplicate warning leaves the
ledger sheet exactly as it was (no append, no modification). -/
theorem C7_duplicate_frame (st : AppState) (data : Receipt) (now : String)
    (k : Nat) (d : DupData) (m : String)
    (h : (doPost st data now).2 = Response.duplicate k d m) :
    ((doPost st data now).1).ledger = st.ledger := by
  by_cases hf : data.force = false
  · cases hfd : findDuplicate (ledgerInit st.ledger) data with
    | none => rw [doPost_nodup st data now hf hfd] at h; simp at h
    | some rd =>
        obtain ⟨r0, d0⟩ := rd
        rw [doPost_dup st data now r0 d0 hf hfd] at h ⊢
        have hlen : ¬ (ledgerInit st.ledger).length ≤ 1 := by
          intro hle
          rw [findDuplicate, if_pos hle] at hfd
          exact Option.noConfusion hfd
        have hne : st.ledger ≠ [] := by
          intro hnil
          rw [hnil] at hlen
          exact hlen (by decide)
        simp [ledgerInit_of_ne_nil hne]
  · rw [doPost_force st data now (by simpa using hf)] at h
    simp at h

/-- Claim C7 witness: the duplicate answer for resubmitting `candA`
leaves the one-receipt ledger unchanged. -/
theorem C7_witness : ((doPost st1 candA "t2").1).ledger = st1.ledger :=
  C7_duplicate_frame st1 candA "t2" 2 (dupDataOf (buildRow candA "t1"))
    (dupMessage (dupDataOf (buildRow candA "t1"))) (by decide)

/-- Claim C9: submitting any receipt with `force` set twice in sequence
is accepted both times, appending two rows at consecutive indices (the
second strictly greater than the first). -/
theorem C9_force_twice (st : AppState) (R : Receipt) (n1 n2 : String)
    (h : R.force = true) :
    (doPost st R n1).2 =
      Response.success "Receipt saved successfully"
        ((ledgerInit st.ledger).length + 1) ∧
    (doPost (doPost st R n1).1 R n2).2 =
      Response.success "Receipt saved successfully"
        ((ledgerInit st.ledger).length + 2) ∧
    ((doPost (doPost st R n1).1 R n2).1).ledger =
      ledgerInit st.ledger ++ [buildRow R n1, buildRow R n2] := by
  have h1 := doPost_force st R n1 h
  have h2 := doPost_force (doPost st R n1).1 R n2 h
  have hL : ledgerInit ((doPost st R n1).1).ledger =
      ledgerInit st.ledger ++ [buildRow R n1] := by
    rw [h1]
    exact ledgerInit_of_ne_nil (by simp)
  refine ⟨by rw [h1], ?_, ?_⟩
  · rw [h2, hL]
    simp
  · rw [h2, hL]
    simp

/-- Claim C9 witness: two forced submissions of `candA` into the empty
spreadsheet are accepted as rows 2 and 3. -/
theorem C9_witness :
    (doPost st0 candForce "t1").2 =
      Response.success "Receipt saved successfully"
        ((ledgerInit st0.ledger).length + 1) ∧
    (doPost (doPost st0 candForce "t1").1 candForce "t2").2 =
      Response.success "Receipt saved successfully"
        ((ledgerInit st0.ledger).length + 2) ∧
    ((doPost (doPost st0 candForce "t1").1 candForce "t2").1).ledger =
      ledgerInit st0.ledger ++ [buildRow candForce "t1", buildRow candForce "t2"] :=
  C9_force_twice st0 candForce "t1" "t2" rfl

/-- Claim C10: the write-side defaults differ from the comparison-side
defaults — an absent merchant is stored as "Unknown" but compared as "",
an absent total is stored as Total "0.00" / Raw Total "" and the matcher
falls back from the empty Raw Total to "0.00" — so the row produced by a
candidate with absent merchant or total never matches that same
candidate. -/
theorem C10_default_mismatch :
    (∀ (c : Receipt) (now : String), c.merchantName = none →
      (buildRow c now).merchant = "Unknown" ∧ jsOr c.merchantName "" = "")
  ∧ (∀ (c : Receipt) (now : String), c.total = none →
      (buildRow c now).total = "0.00" ∧ (buildRow c now).rawTotal = "" ∧
      rawTotalOf (buildRow c now) = "0.00")
  ∧ (∀ (c : Receipt) (now : String), c.merchantName = none ∨ c.total = none →
      rowMatches (buildRow c now) c = false) := by
  refine ⟨?_, ?_, ?_⟩
  · intro c now h
    simp [buildRow, jsOr, h]
  · intro c now h
    simp [buildRow, rawTotalOf, jsOr, jsOrS, h]
  · intro c now h
    rcases h with h | h
    · have hmm : merchantMatch (buildRow c now) c = false := by
        simp only [merchantMatch, buildRow, h, jsOr, jsOrS]
        decide
      simp [rowMatches, hmm]
    · have htm : totalMatch (buildRow c now) c = false := by
        simp only [totalMatch, rawTotalOf, buildRow, h, jsOr, jsOrS]
        decide
      simp [rowMatches, htm]

/-- Claim C10 witness: the defaults and the failed self-match at concrete
receipts with absent merchant and absent total. -/
theorem C10_witness :
    ((buildRow candU "t1").merchant = "Unknown" ∧ jsOr candU.merchantName "" = "")
  ∧ ((buildRow candNoTotal "t1").total = "0.00" ∧
      (buildRow candNoTotal "t1").rawTotal = "" ∧
      rawTotalOf (buildRow candNoTotal "t1") = "0.00")
  ∧ rowMatches (buildRow candNoTotal "t1") candNoTotal = false :=
  ⟨C10_default_mismatch.1 candU "t1" rfl,
   C10_default_mismatch.2.1 candNoTotal "t1" rfl,
   C10_default_mismatch.2.2 candNoTotal "t1" (Or.inr rfl)⟩

theorem migrateRow_rawDate (r : Row) :
    (migrateRow r).rawDate = jsOrS r.date r.rawDate := by
  by_cases hd : r.date = "" <;> by_cases ht : r.total = "" <;>
    simp [migrateRow, jsOrS, hd, ht]

theorem migrateRow_rawTotal (r : Row) :
    (migrateRow r).rawTotal = jsOrS r.total r.rawTotal := by
  by_cases hd : r.date = "" <;> by_cases ht : r.total = "" <;>
    simp [migrateRow, jsOrS, hd, ht]

/-- Claim C1 counterexample: a receipt with merchant and total absent,
submitted twice without `force` to an empty store, is accepted both
times — the second submission is not reported as a duplicate. -/
theorem C1_counterexample :
    (doPost st0 candU "t1").2 = Response.success "Receipt saved successfully" 2 ∧
    (doPost (doPost st0 candU "t1").1 candU "t2").2 =
      Response.success "Receipt saved successfully" 3 :=
  ⟨by decide, by decide⟩

/-- Claim C1 (amended): for a receipt without `force` whose merchant name
and total are present and non-empty, if a submission is accepted as row
`k` then resubmitting the same receipt immediately afterwards is reported
as a duplicate of row `k`. -/
theorem C1_amended_resubmit (st : AppState) (R : Receipt) (n1 n2 m : String)
    (k : Nat) (hf : R.force = false)
    (hm : jsOr R.merchantName "" ≠ "") (ht : jsOr R.total "" ≠ "")
    (h1 : (doPost st R n1).2 = Response.success m k) :
    (doPost (doPost st R n1).1 R n2).2 =
      Response.duplicate k (dupDataOf (buildRow R n1))
        (dupMessage (dupDataOf (buildRow R n1))) := by
  cases hfd : findDuplicate (ledgerInit st.ledger) R with
  | some rd =>
      rw [doPost_dup st R n1 rd.1 rd.2 hf (by simpa using hfd)] at h1
      simp at h1
  | none =>
      have hlen1 : 1 ≤ (ledgerInit st.ledger).length :=
        List.length_pos.mpr (ledgerInit_ne_nil st.ledger)
      have hall : ∀ r ∈ (ledgerInit st.ledger).drop 1, rowMatches r R = false := by
        by_cases hle : (ledgerInit st.ledger).length ≤ 1
        · have hdrop : (ledgerInit st.ledger).drop 1 = [] :=
            List.drop_eq_nil_of_le hle
          simp [hdrop]
        · exact (findDuplicateAux_none_iff R _ 0).mp
            (by simpa [findDuplicate, hle] using hfd)
      have hx : rowMatches (buildRow R n1) R = true :=
        rowMatches_buildRow_self R n1 hm ht
      have hfd2 : findDuplicate (ledgerInit st.ledger ++ [buildRow R n1]) R =
          some ((ledgerInit st.ledger).length + 1, dupDataOf (buildRow R n1)) := by
        have hdrop : (ledgerInit st.ledger ++ [buildRow R n1]).drop 1 =
            (ledgerInit st.ledger).drop 1 ++ [buildRow R n1] :=
          List.drop_append_of_le_length hlen1
        have hlen2 : ¬ (ledgerInit st.ledger ++ [buildRow R n1]).length ≤ 1 := by
          rw [List.length_append, List.length_singleton]
          omega
        rw [findDuplicate, if_neg hlen2, hdrop,
          findDuplicateAux_append_hit R (buildRow R n1) hx _ 0 hall]
        have harith : 0 + ((ledgerInit st.ledger).drop 1).length + 2 =
            (ledgerInit st.ledger).length + 1 := by
          simp [List.length_drop]
          omega
        rw [harith]
      rw [doPost_nodup st R n1 hf hfd] at h1 ⊢
      simp only [Response.success.injEq] at h1
      obtain ⟨_, hk⟩ := h1
      have hinit2 : ledgerInit (ledgerInit st.ledger ++ [buildRow R n1]) =
          ledgerInit st.ledger ++ [buildRow R n1] :=
        ledgerInit_of_ne_nil (by simp)
      rw [doPost_dup _ R n2 ((ledgerInit st.ledger).length + 1)
        (dupDataOf (buildRow R n1)) hf (by dsimp only; rw [hinit2]; exact hfd2)]
      simp [hk]

/-- Claim C1 witness: `candA` submitted twice to the empty store is
accepted as row 2 and then reported as a duplicate of row 2. -/
theorem C1_witness :
    (doPost (doPost st0 candA "t1").1 candA "t2").2 =
      Response.duplicate 2 (dupDataOf (buildRow candA "t1"))
        (dupMessage (dupDataOf (buildRow candA "t1"))) :=
  C1_amended_resubmit st0 candA "t1" "t2" "Receipt saved successfully" 2
    rfl (by decide) (by decide) (by decide)

/-- Claim C2 counterexample: with the storage call after the row append
(`setNumberFormat`, fault index 6 on an empty sheet) throwing, `doPost`
answers with the error response, yet the header row and the receipt row
written by the earlier calls remain in storage. -/
theorem C2_counterexample :
    doPostFaulty (some 6) [] (some candA) "t1" =
      ([headerRow, buildRow candA "t1"], Response.failure storageFailureMsg) ∧
    (doPostFaulty (some 6) [] (some candA) "t1").1 ≠ [] :=
  ⟨by decide, by decide⟩

/-- Claim C2 (amended): every exception is caught and converted into the
error-shaped response; a parsing exception occurs before any storage
access and leaves the store unchanged, and without a storage fault a
well-formed request never yields the error response — but a storage
exception thrown after a write leaves the earlier writes in place. -/
theorem C2_amended_failure_handling :
    (∀ (fault : Option Nat) (ledger : List Row) (now : String),
      doPostFaulty fault ledger none now = (ledger, Response.failure parseFailureMsg))
  ∧ (∀ (ledger : List Row) (data : Receipt) (now : String),
      isFailureResp (doPostFaulty none ledger (some data) now).2 = false) := by
  constructor
  · intro fault ledger now
    rfl
  · intro ledger data now
    have hnone : ∀ j : Nat, ((none : Option Nat) = some j) = False := by
      intro j
      simp
    have happ : ∀ (j : Nat) (L : List Row),
        isFailureResp (appendPhase none j L data now).2 = false := by
      intro j L
      simp [appendPhase, hnone, isFailureResp]
    have hdup : ∀ (j : Nat) (L : List Row),
        isFailureResp (dupPhase none j L data now).2 = false := by
      intro j L
      by_cases hf : data.force = false
      · simp only [dupPhase, hf, if_pos, hnone, if_false]
        by_cases hl : L.length ≤ 1
        · simp [hl, happ]
        · simp only [hl, if_false]
          cases hfd : findDuplicate L data with
          | none => simp [hfd, happ]
          | some rd =>
              obtain ⟨r0, d0⟩ := rd
              simp [hfd, isFailureResp]
      · simp [dupPhase, hf, happ]
    by_cases hl : ledger.length = 0
    · simp [doPostFaulty, hnone, hl, hdup]
    · simp [doPostFaulty, hnone, hl, hdup]

/-- Claim C3 counterexample: a receipt with the total absent stores
Raw Total "" (the raw input text); running the migration rewrites that
Raw Total to the defaulted display value "0.00", which is not the
untransformed input. -/
theorem C3_counterexample :
    candNoTotal.total = none ∧
    ((migrateOldRows ((doPost st0 candNoTotal "t1").1.ledger)).getD 1
      emptyRow).rawTotal = "0.00" :=
  ⟨rfl, by decide⟩

/-- Claim C3 (amended): every ledger row written by submit carries the
untransformed input text in `rawDate`/`rawTotal` (empty when absent); the
migration preserves `rawDate` on such rows, and preserves `rawTotal`
exactly when the input total was present and non-empty, rewriting it to
the defaulted "0.00" when the input total was absent or empty. -/
theorem C3_amended_raw_fields :
    (∀ st : AppState, Reachable st → ∀ r ∈ st.ledger.drop 1,
      ∃ c now, r = buildRow c now ∧
        r.rawDate = jsOr c.date "" ∧ r.rawTotal = jsOr c.total "")
  ∧ (∀ (c : Receipt) (now : String),
      (migrateRow (buildRow c now)).rawDate = jsOr c.date "")
  ∧ (∀ (c : Receipt) (now : String), jsOr c.total "" ≠ "" →
      (migrateRow (buildRow c now)).rawTotal = jsOr c.total "")
  ∧ (∀ (c : Receipt) (now : String), jsOr c.total "" = "" →
      (migrateRow (buildRow c now)).rawTotal = "0.00") := by
  refine ⟨?_, ?_, ?_, ?_⟩
  · intro st h r hr
    rcases reachable_shape h with hnil | ⟨t, ht, hall⟩
    · rw [hnil] at hr
      simp at hr
    · rw [ht] at hr
      obtain ⟨c, now, hc⟩ := hall r (by simpa using hr)
      exact ⟨c, now, hc, by rw [hc]; rfl, by rw [hc]; rfl⟩
  · intro c now
    rw [migrateRow_rawDate]
    show jsOrS (jsOr c.date "") (jsOr c.date "") = jsOr c.date ""
    exact jsOrS_self _
  · intro c now ht
    rw [migrateRow_rawTotal]
    show jsOrS (jsOr c.total "0.00") (jsOr c.total "") = jsOr c.total ""
    rw [jsOr_via c.total "0.00", jsOrS_of_ne _ ht, jsOrS_of_ne _ ht]
  · intro c now ht
    rw [migrateRow_rawTotal]
    show jsOrS (jsOr c.total "0.00") (jsOr c.total "") = "0.00"
    rw [jsOr_via c.total "0.00", ht]
    rfl

/-- Claim C3 witness: the raw-field facts at `candA` (total "10.00",
preserved by migration) and at a receipt with absent total (rewritten to
"0.00"). -/
theorem C3_witness :
    (∃ c now, buildRow candA "t1" = buildRow c now ∧
      (buildRow candA "t1").rawDate = jsOr c.date "" ∧
      (buildRow candA "t1").rawTotal = jsOr c.total "") ∧
    (migrateRow (buildRow candA "t1")).rawTotal = jsOr candA.total "" ∧
    (migrateRow (buildRow candNoTotal "t1")).rawTotal = "0.00" :=
  ⟨C3_amended_raw_fields.1 st1 (Reachable.step st0 candA "t1" Reachable.empty)
      (buildRow candA "t1") (by decide),
   C3_amended_raw_fields.2.2.1 candA "t1" (by decide),
   C3_amended_raw_fields.2.2.2 candNoTotal "t1" rfl⟩

/-- Claim C8: in every store state reachable by submit requests, the
label row is row 1 and occurs exactly once (or the store is still empty),
and a submit against a non-empty store never changes the number of label
rows (the header is created only when the row count is exactly zero). -/
theorem C8_header_once :
    (∀ st : AppState, Reachable st →
      st.ledger = [] ∨
        (st.ledger.head? = some headerRow ∧ st.ledger.count headerRow = 1))
  ∧ (∀ (st : AppState) (data : Receipt) (now : String), st.ledger ≠ [] →
      ((doPost st data now).1).ledger.count headerRow =
        st.ledger.count headerRow) := by
  constructor
  · intro st h
    rcases reachable_shape h with hnil | ⟨t, ht, hall⟩
    · exact Or.inl hnil
    · refine Or.inr ⟨by rw [ht]; rfl, ?_⟩
      rw [ht]
      have hzero : t.count headerRow = 0 := by
        rw [List.count_eq_zero]
        intro hmem
        obtain ⟨c, now, hc⟩ := hall headerRow hmem
        exact buildRow_ne_headerRow c now hc.symm
      rw [List.count_cons_self, hzero]
  · intro st data now hne
    have hone : List.count headerRow [buildRow data now] = 0 := by
      rw [List.count_eq_zero]
      intro hmem
      have hbh := List.mem_singleton.mp hmem
      exact buildRow_ne_headerRow data now hbh.symm
    rcases doPost_ledger_cases st data now with hc | hc
    · rw [hc, ledgerInit_of_ne_nil hne]
    · rw [hc, ledgerInit_of_ne_nil hne, List.count_append, hone]
      omega

/-- Claim C8 witness: after one accepted submission the header is row 1
and unique, and a further submission against the non-empty store does
not add another header row. -/
theorem C8_witness :
    ((doPost st0 candA "t1").1.ledger = [] ∨
      ((doPost st0 candA "t1").1.ledger.head? = some headerRow ∧
        (doPost st0 candA "t1").1.ledger.count headerRow = 1))
  ∧ ((doPost (doPost st0 candA "t1").1 candB "t2").1).ledger.count headerRow =
      (doPost st0 candA "t1").1.ledger.count headerRow :=
  ⟨C8_header_once.1 _ (Reachable.step st0 candA "t1" Reachable.empty),
   C8_header_once.2 (doPost st0 candA "t1").1 candB "t2" (by decide)⟩
